import Mathlib

/-!
Shallow embedding of the opencode notify plugin (src/plugins/notify.js).

JavaScript strings are modelled as Lean `String`; the handful of JS string
operations the plugin uses (trim, toLowerCase, regex split, slice) are
implemented over the character list so that every definition evaluates in
the kernel.  External effects (session queries, focus queries, spawned
processes) are modelled as oracle inputs: the pure decision logic of the
plugin is translated line by line, and the side effects it would perform
are reported as data (which channels fire, which toast call is made).
-/

namespace Notify

/-- Models JavaScript `String.prototype.trim` (drop leading and trailing
whitespace). -/
def jsTrim (s : String) : String :=
  String.mk (((s.data.dropWhile Char.isWhitespace).reverse.dropWhile Char.isWhitespace).reverse)

/-- Models JavaScript `String.prototype.toLowerCase` (the identifiers the
plugin compares are ASCII). -/
def jsLower (s : String) : String :=
  String.mk (s.data.map Char.toLower)

/-- Character class of the regex `[a-z0-9]` used by
`normalized.split(/[^a-z0-9]+/)` (the input is already lowercased). -/
def isAsciiAlphanum (c : Char) : Bool :=
  ('a' ≤ c && c ≤ 'z') || ('0' ≤ c && c ≤ '9')

/-- Helper for `tokenize`: walks the characters, accumulating the current
run of alphanumeric characters (reversed). -/
def tokenizeAux : List Char → List Char → List String
  | [], cur => if cur.isEmpty then [] else [String.mk cur.reverse]
  | c :: rest, cur =>
    if isAsciiAlphanum c then tokenizeAux rest (c :: cur)
    else if cur.isEmpty then tokenizeAux rest []
    else String.mk cur.reverse :: tokenizeAux rest []

/-- Models `normalized.split(/[^a-z0-9]+/).filter(Boolean)`: the maximal
nonempty runs of alphanumeric characters. -/
def tokenize (s : String) : List String :=
  tokenizeAux s.data []

/-- Models JavaScript `fullMessage.slice(0, n)`. -/
def jsSlice (s : String) (n : Nat) : String :=
  String.mk (s.data.take n)

/-- Truthiness of an optional JS string: `undefined` and the empty string
are falsy, every other string is truthy. -/
def jsTruthy : Option String → Bool
  | some s => !(s == "")
  | none => false

/-- Models the JS expression `a || b` on strings (empty string is falsy). -/
def strOr (a b : String) : String :=
  if a == "" then b else a

/-- Models the JS expression `m || d` where `m` is a possibly-undefined
string (used for `error.data?.message || defaultText`). -/
def jsOrStr : Option String → String → String
  | some s, d => if s == "" then d else s
  | none, d => d

/-- Session metadata as used by the plugin; every field the code reads may
be absent or a non-string in JS, so each is an `Option String` (with `none`
covering both absence and non-string values, which the code treats alike via
its `typeof` checks and truthiness tests). -/
structure Session where
  title : Option String
  slug : Option String
  id : Option String
  parentID : Option String
deriving DecidableEq

/-- The five boolean keys of the plugin configuration. -/
structure Config where
  suppressWhenFocused : Bool
  notifyOnError : Bool
  notifyOnPermission : Bool
  notifyOnQuestion : Bool
  notifyChildSessions : Bool
deriving DecidableEq

/-- The `DEFAULT_CONFIG` object from src/plugins/notify.js. -/
def DEFAULT_CONFIG : Config :=
  { suppressWhenFocused := true
    notifyOnError := true
    notifyOnPermission := true
    notifyOnQuestion := true
    notifyChildSessions := false }

/-- The `KNOWN_TERMINAL_EXACT` set from src/plugins/notify.js. -/
def KNOWN_TERMINAL_EXACT : List String :=
  ["ghostty", "kitty", "foot", "alacritty", "wezterm", "iterm2", "terminal",
   "hyper", "warp", "rio", "st", "urxvt", "xterm",
   "com.mitchellh.ghostty", "org.wezfurlong.wezterm", "org.alacritty.alacritty",
   "dev.warp.warp", "net.kovidgoyal.kitty"]

/-- The `KNOWN_TERMINAL_TOKENS` set from src/plugins/notify.js. -/
def KNOWN_TERMINAL_TOKENS : List String :=
  ["ghostty", "kitty", "foot", "alacritty", "wezterm", "iterm2", "terminal",
   "hyper", "warp", "rio", "urxvt", "xterm"]

/-- Translation of `isKnownTerminalIdentifier` (src/plugins/notify.js,
lines 63-71); the `typeof value !== "string"` guard is subsumed by typing
the input as `String`. -/
def isKnownTerminalIdentifier (value : String) : Bool :=
  let normalized := jsLower (jsTrim value)
  if normalized == "" then false
  else if KNOWN_TERMINAL_EXACT.contains normalized then true
  else (tokenize normalized).any (fun part => KNOWN_TERMINAL_TOKENS.contains part)

/-- Translation of `pickSessionLabel` (src/plugins/notify.js, lines
130-136).  A `none` session covers the JS `!session || typeof session !==
"object"` guard. -/
def pickSessionLabel (session : Option Session) (sessionID : String) : String :=
  match session with
  | none => sessionID
  | some s =>
    let title := jsTrim (s.title.getD "")
    let slug := jsTrim (s.slug.getD "")
    let id := jsTrim (s.id.getD "")
    strOr title (strOr slug (strOr id sessionID))

/-- One kitty window record as scanned by `pickFocusedKittyWindowID`: the
`id` field (already stringified, `none` for `undefined`/`null`) and the
three focus flags the code tests with `=== true`. -/
structure KittyWindow where
  id : Option String
  is_focused : Bool
  focused : Bool
  is_active : Bool
deriving DecidableEq

/-- A kitty tab: its list of windows (`tab?.windows` coerced to an array). -/
structure KittyTab where
  windows : List KittyWindow
deriving DecidableEq

/-- A kitty OS window: its list of tabs (`osWindow?.tabs` coerced to an
array). -/
structure KittyOsWindow where
  tabs : List KittyTab
deriving DecidableEq

/-- The window→tab→window flattening performed by the two nested loops of
`pickFocusedKittyWindowID`. -/
def allKittyWindows (payload : List KittyOsWindow) : List KittyWindow :=
  payload.flatMap (fun osWindow => osWindow.tabs.flatMap (fun tab => tab.windows))

/-- The focus test `window?.is_focused === true || window?.focused === true
|| window?.is_active === true`. -/
def kittyWindowIsFocused (w : KittyWindow) : Bool :=
  w.is_focused || w.focused || w.is_active

/-- Translation of `pickFocusedKittyWindowID` (src/plugins/notify.js, lines
73-101): first pass returns the first window that has an id and a focus
flag; second pass returns the first window that has an id at all. -/
def pickFocusedKittyWindowID (payload : List KittyOsWindow) : Option String :=
  match (allKittyWindows payload).find? (fun w => w.id.isSome && kittyWindowIsFocused w) with
  | some w => w.id
  | none => ((allKittyWindows payload).find? (fun w => w.id.isSome)).bind (fun w => w.id)

/-- Translation of `isCurrentKittyWindowFocused` (src/plugins/notify.js,
lines 103-123).  `currentWindowID` is the `KITTY_WINDOW_ID` environment
variable; `queryOutput` is the parsed output of `kitty @ ls`, with `none`
covering a failed spawn, empty output, or unparsable JSON. -/
def isCurrentKittyWindowFocused (currentWindowID : Option String)
    (queryOutput : Option (List KittyOsWindow)) : Option Bool :=
  if !jsTruthy currentWindowID then none
  else
    match queryOutput with
    | none => none
    | some payload =>
      match pickFocusedKittyWindowID payload with
      | none => none
      | some focusedWindowID =>
        if focusedWindowID == "" then none
        else some (focusedWindowID == currentWindowID.getD "")

/-- Process platform, as tested via `process.platform`. -/
inductive Platform
  | linux
  | darwin
  | other
deriving DecidableEq, BEq

/-- Ambient environment of one `sendNotification` call: the platform, the
`KITTY_WINDOW_ID` environment variable, the value the awaited
`isTerminalFocused()` call would produce, and the parsed `kitty @ ls`
output the awaited `isCurrentKittyWindowFocused()` call would observe. -/
structure Env where
  platform : Platform
  kittyWindowID : Option String
  terminalFocused : Bool
  kittyQuery : Option (List KittyOsWindow)
deriving DecidableEq

/-- Which of the three delivery channels fired. -/
structure Channels where
  toast : Bool
  banner : Bool
  bell : Bool
deriving DecidableEq

/-- Translation of `markKittyTabNeedsInput` (src/plugins/notify.js, lines
125-128): the bell byte is written exactly when `KITTY_WINDOW_ID` is
truthy. -/
def markKittyTabNeedsInput (env : Env) : Bool :=
  jsTruthy env.kittyWindowID

/-- Translation of `sendNotification` (src/plugins/notify.js, lines
280-326), reporting which channels fire for a given variant.  The title
and message do not influence channel selection. -/
def sendNotification (config : Config) (env : Env) (variant : String) : Channels :=
  let suppressWhileFocused :=
    if config.suppressWhenFocused && !(variant == "error") then
      if !env.terminalFocused then false
      else if (env.platform == Platform.linux) && jsTruthy env.kittyWindowID then
        match isCurrentKittyWindowFocused env.kittyWindowID env.kittyQuery with
        | some true => true
        | some false => false
        | none => env.terminalFocused
      else env.terminalFocused
    else false
  let shouldShowToast := variant == "error"
  if suppressWhileFocused then ⟨false, false, false⟩
  else
    { toast := shouldShowToast
      banner := !suppressWhileFocused || variant == "error"
      bell := markKittyTabNeedsInput env }

/-- Error payload of a `session.error` event: `error.type` and
`error.data?.message`, each possibly absent. -/
structure ErrorPayload where
  type : Option String
  dataMessage : Option String
deriving DecidableEq

/-- Event properties: `sessionID`, the error payload, and the
`title`/`permission` strings used by the two permission event kinds
(`none` covers absent or non-string values, matching the `typeof`
checks). -/
structure EventProps where
  sessionID : Option String
  error : Option ErrorPayload
  title : Option String
  permission : Option String
deriving DecidableEq

/-- An inbound event: its `type` discriminator and its properties. -/
structure Event where
  type : String
  properties : EventProps
deriving DecidableEq

/-- Models the JS optional chain `error?.type`. -/
def errType (error : Option ErrorPayload) : Option String :=
  error.bind (fun e => e.type)

/-- Models the JS optional chain `error.data?.message` (as an optional
string). -/
def errDataMessage (error : Option ErrorPayload) : Option String :=
  error.bind (fun e => e.dataMessage)

/-- Models the JS optional chain `session?.parentID` followed by a
truthiness test. -/
def sessionParentTruthy (session : Option Session) : Bool :=
  match session with
  | some s => jsTruthy s.parentID
  | none => false

/-- Translation of the error-message extraction chain in the
`session.error` branch (src/plugins/notify.js, lines 386-395). -/
def errorMessage (error : Option ErrorPayload) : String :=
  if errType error == some "provider_auth" then
    "Auth error: " ++ (errDataMessage error).getD ""
  else if errType error == some "unknown" then
    jsOrStr (errDataMessage error) "Unknown error"
  else if errType error == some "output_length" then
    "Output too long"
  else if errType error == some "api" then
    "API error: " ++ (errDataMessage error).getD ""
  else "Something went wrong"

/-- Translation of the truncation step (src/plugins/notify.js, line 399):
`fullMessage.length > 100 ? fullMessage.slice(0, 97) + "..." : fullMessage`. -/
def truncateMessage (fullMessage : String) : String :=
  if fullMessage.length > 100 then jsSlice fullMessage 97 ++ "..." else fullMessage

/-- Arguments of one `sendNotification` call as issued by the event
handler. -/
structure NotifyCall where
  title : String
  message : String
  variant : String
deriving DecidableEq

/-- Translation of `handlePermissionEvent` (src/plugins/notify.js, lines
328-351).  `resolve` is the oracle for the awaited `getSessionByID`
lookup; the result is the `sendNotification` call made, or `none` when the
handler returns without notifying. -/
def handlePermissionEvent (config : Config) (resolve : Option String → Option Session)
    (ev : Event) : Option NotifyCall :=
  if !config.notifyOnPermission then none
  else
    let sessionID := ev.properties.sessionID
    match resolve sessionID with
    | none => none
    | some session =>
      if !config.notifyChildSessions && jsTruthy session.parentID then none
      else
        let sessionLabel := pickSessionLabel (some session) (sessionID.getD "")
        let permissionDescription :=
          match ev.properties.title with
          | some t => t
          | none =>
            match ev.properties.permission with
            | some p => p
            | none => "Permission needed"
        some ⟨"Permission needed", sessionLabel ++ ": " ++ permissionDescription, "warning"⟩

/-- Translation of the returned `event` handler (src/plugins/notify.js,
lines 353-429): the `sendNotification` call it makes for a given event, or
`none` when no notification is attempted. -/
def event (config : Config) (resolve : Option String → Option Session)
    (ev : Event) : Option NotifyCall :=
  if ev.type == "session.idle" then
    let sessionID := ev.properties.sessionID
    match resolve sessionID with
    | none => none
    | some session =>
      if !config.notifyChildSessions && jsTruthy session.parentID then none
      else
        some ⟨"Agent is ready for input",
              pickSessionLabel (some session) (sessionID.getD ""), "info"⟩
  else if ev.type == "session.error" then
    if !config.notifyOnError then none
    else
      let sessionID := ev.properties.sessionID
      let error := ev.properties.error
      if errType error == some "aborted" then none
      else if jsTruthy sessionID then
        let session := resolve sessionID
        if !config.notifyChildSessions && sessionParentTruthy session then none
        else
          let sessionLabel := pickSessionLabel session (sessionID.getD "")
          some ⟨"Error occurred",
                truncateMessage (sessionLabel ++ ": " ++ errorMessage error), "error"⟩
      else
        some ⟨"Error occurred",
              truncateMessage ("Unknown session" ++ ": " ++ errorMessage error), "error"⟩
  else if ev.type == "question.asked" then
    if !config.notifyOnQuestion then none
    else
      let sessionID := ev.properties.sessionID
      match resolve sessionID with
      | none => none
      | some session =>
        if !config.notifyChildSessions && jsTruthy session.parentID then none
        else
          some ⟨"Question for you",
                pickSessionLabel (some session) (sessionID.getD ""), "warning"⟩
  else if ev.type == "permission.updated" then
    handlePermissionEvent config resolve ev
  else if ev.type == "permission.asked" then
    handlePermissionEvent config resolve ev
  else none

/-- Channels fired for one inbound event end to end: the handler decides
whether to call `sendNotification`, which then decides the channels. -/
def eventChannels (config : Config) (resolve : Option String → Option Session)
    (env : Env) (ev : Event) : Channels :=
  match event config resolve ev with
  | none => ⟨false, false, false⟩
  | some call => sendNotification config env call.variant

/-- Helper: for the error variant the suppression block is skipped
entirely, so toast and banner always fire and the bell follows
`KITTY_WINDOW_ID`. -/
theorem sendNotification_error_channels (config : Config) (env : Env) :
    sendNotification config env "error" = ⟨true, true, jsTruthy env.kittyWindowID⟩ := by
  simp [sendNotification, markKittyTabNeedsInput]

/-- C1: the claim that the bell fires regardless of the suppression
outcome fails on the code: in a bell-capable environment
(KITTY_WINDOW_ID set) where suppression triggers (non-error variant,
suppressWhenFocused on, terminal focused, kitty pane query inconclusive),
`sendNotification` returns before reaching `markKittyTabNeedsInput`, so no
channel fires at all — the bell included. -/
theorem c1_suppression_also_skips_bell :
    jsTruthy (Env.mk Platform.linux (some "1") true none).kittyWindowID = true ∧
    sendNotification DEFAULT_CONFIG (Env.mk Platform.linux (some "1") true none) "info" =
      ⟨false, false, false⟩ := by
  decide

/-- C2: in the claimed scenario (session.idle for top-level session
"Build", default configuration, focus detector reporting not focused) the
handler issues the call ⟨"Agent is ready for input", "Build", "info"⟩ and
the desktop banner fires, but the toast does not: `shouldShowToast` is
`variant === "error"`, so a non-error variant renders no toast. -/
theorem c2_idle_banner_without_toast :
    event DEFAULT_CONFIG (fun _ => some ⟨some "Build", none, some "s1", none⟩)
        ⟨"session.idle", ⟨some "s1", none, none, none⟩⟩ =
      some ⟨"Agent is ready for input", "Build", "info"⟩ ∧
    sendNotification DEFAULT_CONFIG (Env.mk Platform.other none false none) "info" =
      ⟨false, true, false⟩ := by
  decide

/-- C3 counterexample: the claim that resolution failure means no channel
fires for every event kind is false for session.error — with a sessionID
that no lookup resolves, the error branch still dispatches, using the raw
sessionID as the label, and the banner channel fires. -/
theorem c3_error_fires_despite_resolution_failure :
    event DEFAULT_CONFIG (fun _ => none)
        ⟨"session.error", ⟨some "s1", some ⟨some "api", some "boom"⟩, none, none⟩⟩ =
      some ⟨"Error occurred", "s1: API error: boom", "error"⟩ ∧
    eventChannels DEFAULT_CONFIG (fun _ => none) (Env.mk Platform.other none false none)
        ⟨"session.error", ⟨some "s1", some ⟨some "api", some "boom"⟩, none, none⟩⟩ ≠
      ⟨false, false, false⟩ := by
  decide

/-- C3 (amended): when session resolution exhausts all fallbacks without
producing a session, no notification fires for session.idle,
question.asked, permission.updated and permission.asked; the session.error
kind is excluded, since its branch notifies anyway. -/
theorem c3_resolution_failure_no_notification (config : Config)
    (resolve : Option String → Option Session) (ev : Event)
    (hres : resolve ev.properties.sessionID = none)
    (htype : ev.type = "session.idle" ∨ ev.type = "question.asked" ∨
             ev.type = "permission.updated" ∨ ev.type = "permission.asked") :
    event config resolve ev = none := by
  rcases htype with h | h | h | h <;>
    simp [event, handlePermissionEvent, h, hres]

/-- C3 witness: a concrete session.idle event whose session does not
resolve produces no notification call. -/
theorem c3_resolution_failure_no_notification_witness :
    event DEFAULT_CONFIG (fun _ => none)
      ⟨"session.idle", ⟨some "s1", none, none, none⟩⟩ = none :=
  c3_resolution_failure_no_notification DEFAULT_CONFIG (fun _ => none)
    ⟨"session.idle", ⟨some "s1", none, none, none⟩⟩ rfl (Or.inl rfl)

/-- C4: every session.error event that makes it to dispatch carries the
error variant, and for the error variant `sendNotification` skips the
suppression block entirely: the banner (and the toast) fire for every
environment, in particular when suppressWhenFocused is on and the
terminal is focused. -/
theorem c4_error_variant_bypasses_suppression (config : Config)
    (resolve : Option String → Option Session) (env : Env) (ev : Event) (call : NotifyCall)
    (htype : ev.type = "session.error")
    (hcall : event config resolve ev = some call) :
    call.variant = "error" ∧
    sendNotification config env call.variant = ⟨true, true, jsTruthy env.kittyWindowID⟩ := by
  have hv : call.variant = "error" := by
    unfold event at hcall
    rw [htype] at hcall
    simp only [String.reduceBEq, Bool.false_eq_true, if_false, if_true] at hcall
    split at hcall
    · exact Option.noConfusion hcall
    · split at hcall
      · exact Option.noConfusion hcall
      · split at hcall
        · split at hcall
          · exact Option.noConfusion hcall
          · cases hcall
            rfl
        · cases hcall
          rfl
  rw [hv]
  exact ⟨rfl, sendNotification_error_channels config env⟩

/-- C4 witness: a concrete non-aborted session.error event dispatches with
the error variant, and in a focused kitty environment with suppression
configured the banner (and toast) still fire. -/
theorem c4_error_variant_bypasses_suppression_witness :
    (⟨"Error occurred", "s1: API error: boom", "error"⟩ : NotifyCall).variant = "error" ∧
    sendNotification DEFAULT_CONFIG (Env.mk Platform.linux (some "1") true none) "error" =
      ⟨true, true, true⟩ := by
  have h := c4_error_variant_bypasses_suppression DEFAULT_CONFIG (fun _ => none)
      (Env.mk Platform.linux (some "1") true none)
      ⟨"session.error", ⟨some "s1", some ⟨some "api", some "boom"⟩, none, none⟩⟩
      ⟨"Error occurred", "s1: API error: boom", "error"⟩ rfl (by decide)
  exact ⟨h.1, h.2⟩

/-- C5 counterexample: the pane refinement is additionally gated on the
linux platform, not on KITTY_WINDOW_ID alone — on darwin inside a kitty
pane, with suppression configured, the terminal focused and a pane query
that would report a different pane focused (a definite not-focused pane
result), `sendNotification` never consults the pane matcher and
suppresses every channel anyway, so the definite not-focused pane result
does not cancel suppression as the claim states. -/
theorem c5_darwin_pane_result_ignored :
    isCurrentKittyWindowFocused (some "1")
        (some [⟨[⟨[⟨some "2", true, false, false⟩]⟩]⟩]) = some false ∧
    sendNotification DEFAULT_CONFIG
        (Env.mk Platform.darwin (some "1") true
          (some [⟨[⟨[⟨some "2", true, false, false⟩]⟩]⟩]))
        "info" = ⟨false, false, false⟩ := by
  decide

/-- C5 (amended): with suppression configured, a non-error variant, the
terminal focused and the process inside a kitty pane on the linux
platform (the code requires `process.platform === "linux"` in addition to
KITTY_WINDOW_ID), the pane query refines the verdict: a definite
not-focused pane cancels suppression (the banner and bell fire), while a
definite focused pane or an inconclusive query confirms suppression
(nothing fires). -/
theorem c5_pane_refinement (config : Config) (env : Env) (variant : String)
    (hs : config.suppressWhenFocused = true) (hv : ¬ variant = "error")
    (hf : env.terminalFocused = true) (hp : env.platform = Platform.linux)
    (hk : jsTruthy env.kittyWindowID = true) :
    (isCurrentKittyWindowFocused env.kittyWindowID env.kittyQuery = some false →
      sendNotification config env variant = ⟨false, true, true⟩) ∧
    (isCurrentKittyWindowFocused env.kittyWindowID env.kittyQuery = some true →
      sendNotification config env variant = ⟨false, false, false⟩) ∧
    (isCurrentKittyWindowFocused env.kittyWindowID env.kittyQuery = none →
      sendNotification config env variant = ⟨false, false, false⟩) := by
  have hv2 : (variant == "error") = false := by
    rw [beq_eq_false_iff_ne]
    exact hv
  refine ⟨fun hq => ?_, fun hq => ?_, fun hq => ?_⟩ <;>
    simp [sendNotification, markKittyTabNeedsInput, hs, hv2, hf, hp, hk, hq,
      show (Platform.linux == Platform.linux) = true from rfl]

/-- C5 witness: in a concrete focused kitty environment whose pane query
reports a different pane focused, the banner and bell fire despite the
focused terminal. -/
theorem c5_pane_refinement_witness :
    isCurrentKittyWindowFocused (some "1")
        (some [⟨[⟨[⟨some "2", true, false, false⟩]⟩]⟩]) = some false ∧
    sendNotification DEFAULT_CONFIG
        (Env.mk Platform.linux (some "1") true (some [⟨[⟨[⟨some "2", true, false, false⟩]⟩]⟩]))
        "info" = ⟨false, true, true⟩ := by
  have h := (c5_pane_refinement DEFAULT_CONFIG
      (Env.mk Platform.linux (some "1") true (some [⟨[⟨[⟨some "2", true, false, false⟩]⟩]⟩]))
      "info" rfl (by decide) rfl rfl rfl).1 (by decide)
  exact ⟨by decide, h⟩

/-- C6: for every event, when the session the handler resolves has a
truthy parentID and notifyChildSessions is false, no notification call is
made, whatever the event kind. -/
theorem c6_child_sessions_filtered (config : Config)
    (resolve : Option String → Option Session) (ev : Event) (s : Session)
    (hc : config.notifyChildSessions = false)
    (hsid : ev.type = "session.error" → jsTruthy ev.properties.sessionID = true)
    (hres : resolve ev.properties.sessionID = some s)
    (hparent : jsTruthy s.parentID = true) :
    event config resolve ev = none := by
  by_cases he : ev.type = "session.error"
  · simp [event, handlePermissionEvent, sessionParentTruthy, hc, hsid he, hres, hparent]
  · have he2 : (ev.type == "session.error") = false := by
      rw [beq_eq_false_iff_ne]
      exact he
    simp [event, handlePermissionEvent, sessionParentTruthy, hc, hres, hparent, he2]

/-- C6 witness: a session.idle event whose session resolves to a child
session is filtered out under the default configuration. -/
theorem c6_child_sessions_filtered_witness :
    event DEFAULT_CONFIG (fun _ => some ⟨some "Build", none, some "s1", some "parent"⟩)
      ⟨"session.idle", ⟨some "s1", none, none, none⟩⟩ = none :=
  c6_child_sessions_filtered DEFAULT_CONFIG
    (fun _ => some ⟨some "Build", none, some "s1", some "parent"⟩)
    ⟨"session.idle", ⟨some "s1", none, none, none⟩⟩
    ⟨some "Build", none, some "s1", some "parent"⟩ rfl (fun _ => by decide) rfl (by decide)

/-- C7 counterexample: the claim that the derived label is never empty is
false when the original identifier string is itself empty and every
session field trims to the empty string. -/
theorem c7_label_empty_example :
    pickSessionLabel (some ⟨some " ", some "", some "", none⟩) "" = "" := by
  decide

/-- C7 (amended): the derived label follows the strict priority order
trimmed title, else trimmed slug, else trimmed id, else the original
identifier string; it is nonempty whenever the original identifier string
is nonempty. -/
theorem c7_label_priority (s : Session) (sessionID : String) :
    pickSessionLabel (some s) sessionID =
      (if jsTrim (s.title.getD "") = "" then
         (if jsTrim (s.slug.getD "") = "" then
            (if jsTrim (s.id.getD "") = "" then sessionID else jsTrim (s.id.getD ""))
          else jsTrim (s.slug.getD ""))
       else jsTrim (s.title.getD "")) ∧
    (¬ sessionID = "" → ¬ pickSessionLabel (some s) sessionID = "") := by
  have heq : pickSessionLabel (some s) sessionID =
      (if jsTrim (s.title.getD "") = "" then
         (if jsTrim (s.slug.getD "") = "" then
            (if jsTrim (s.id.getD "") = "" then sessionID else jsTrim (s.id.getD ""))
          else jsTrim (s.slug.getD ""))
       else jsTrim (s.title.getD "")) := by
    simp only [pickSessionLabel, strOr, beq_iff_eq]
  refine ⟨heq, fun hsid => ?_⟩
  rw [heq]
  split_ifs with h1 h2 h3
  · exact hsid
  · exact h3
  · exact h2
  · exact h1

/-- C7 witness: for a concrete session with a whitespace-padded title the
label is the trimmed title, hence nonempty given the nonempty
identifier. -/
theorem c7_label_priority_witness :
    ¬ pickSessionLabel (some ⟨some " Build ", some "slug", some "id", none⟩) "s1" = "" :=
  (c7_label_priority ⟨some " Build ", some "slug", some "id", none⟩ "s1").2 (by decide)

/-- C8: the error notification body is left unmodified when it has at most
100 characters; otherwise the result has at most 100 characters and ends
in the three-character ellipsis. -/
theorem c8_truncation (s : String) :
    (s.length ≤ 100 → truncateMessage s = s) ∧
    (100 < s.length →
      (truncateMessage s).length ≤ 100 ∧
      ∃ t : String, truncateMessage s = t ++ "...") := by
  constructor
  · intro h
    unfold truncateMessage
    rw [if_neg (by omega)]
  · intro h
    unfold truncateMessage
    rw [if_pos (by omega)]
    refine ⟨?_, jsSlice s 97, rfl⟩
    rw [String.length_append]
    have h1 : (jsSlice s 97).length = (s.data.take 97).length := rfl
    have h2 : ("..." : String).length = 3 := rfl
    rw [h1, h2, List.length_take]
    have h3 := Nat.min_le_left 97 s.data.length
    omega

/-- C8 witness: a 101-character body is truncated to 100 characters ending
in the ellipsis, while a short body stays unmodified. -/
theorem c8_truncation_witness :
    100 < (String.mk (List.replicate 101 'a')).length ∧
    (truncateMessage (String.mk (List.replicate 101 'a'))).length ≤ 100 ∧
    (∃ t : String, truncateMessage (String.mk (List.replicate 101 'a')) = t ++ "...") ∧
    truncateMessage "Build: API error: rate limited" = "Build: API error: rate limited" := by
  have h2 := (c8_truncation (String.mk (List.replicate 101 'a'))).2 (by decide)
  exact ⟨by decide, h2.1, h2.2, (c8_truncation "Build: API error: rate limited").1 (by decide)⟩

/-- C9: the known-terminal test accepts a string exactly when its trimmed,
lowercased form is in the exact set or some alphanumeric token of it is in
the token set; the six example identifiers behave as claimed. -/
theorem c9_identifier_matching :
    (∀ value : String,
      isKnownTerminalIdentifier value =
        (KNOWN_TERMINAL_EXACT.contains (jsLower (jsTrim value)) ||
         (tokenize (jsLower (jsTrim value))).any
           (fun part => KNOWN_TERMINAL_TOKENS.contains part))) ∧
    isKnownTerminalIdentifier "org.wezfurlong.wezterm" = true ∧
    isKnownTerminalIdentifier "Kitty" = true ∧
    isKnownTerminalIdentifier " WARP " = true ∧
    isKnownTerminalIdentifier "firefox" = false ∧
    isKnownTerminalIdentifier "" = false ∧
    isKnownTerminalIdentifier "com.unknown.app" = false := by
  refine ⟨fun value => ?_, by decide, by decide, by decide, by decide, by decide, by decide⟩
  simp only [isKnownTerminalIdentifier]
  by_cases h : jsLower (jsTrim value) = ""
  · rw [h]
    decide
  · have hb : (jsLower (jsTrim value) == "") = false := by
      rw [beq_eq_false_iff_ne]
      exact h
    rw [hb]
    simp only [Bool.false_eq_true, if_false]
    cases hc : KNOWN_TERMINAL_EXACT.contains (jsLower (jsTrim value)) <;> simp [hc]

/-- C10: a session.error event carrying no sessionID (and a non-aborted
error) is dispatched for every resolution oracle alike — resolution and
the child filter never run — with the label "Unknown session", and the
banner channel fires. -/
theorem c10_unknown_session_error (config : Config)
    (resolve : Option String → Option Session) (env : Env) (err : ErrorPayload)
    (hon : config.notifyOnError = true)
    (hab : ¬ err.type = some "aborted") :
    event config resolve ⟨"session.error", ⟨none, some err, none, none⟩⟩ =
      some ⟨"Error occurred",
            truncateMessage ("Unknown session" ++ ": " ++ errorMessage (some err)), "error"⟩ ∧
    (sendNotification config env "error").banner = true := by
  constructor
  · simp [event, errType, hon, hab, jsTruthy]
  · rw [sendNotification_error_channels]

/-- C10 witness: the claimed api-error scenario without a sessionID
notifies with the "Unknown session" label and fires the banner. -/
theorem c10_unknown_session_error_witness :
    DEFAULT_CONFIG.notifyOnError = true ∧
    ¬ (⟨some "api", some "rate limited"⟩ : ErrorPayload).type = some "aborted" ∧
    event DEFAULT_CONFIG (fun _ => none)
        ⟨"session.error", ⟨none, some ⟨some "api", some "rate limited"⟩, none, none⟩⟩ =
      some ⟨"Error occurred",
            truncateMessage ("Unknown session" ++ ": " ++
              errorMessage (some ⟨some "api", some "rate limited"⟩)), "error"⟩ ∧
    (sendNotification DEFAULT_CONFIG (Env.mk Platform.other none false none) "error").banner =
      true := by
  have h := c10_unknown_session_error DEFAULT_CONFIG (fun _ => none)
      (Env.mk Platform.other none false none) ⟨some "api", some "rate limited"⟩ rfl (by decide)
  exact ⟨rfl, by decide, h.1, h.2⟩

end Notify
